import Mathlib

/-!
# Verification of the agent-studio streaming persistence engine

A shallow embedding of the chunk-merging persistence core of the
`agent-studio` repository, together with the display helper
`extract_text_from_content` from `src/panels/conversation/helpers.rs`.

The persistence engine itself (`PersistenceService`, `MergePolicy`,
`SessionBuffer`, `FlushScheduler`, `MessageStore`) is exercised by
`src/core/services/persistence_service_test.rs` but its implementation file
is not among the provided sources; the definitions below are therefore
modelled from the specification (spec.md §§3–5), faithful to its decision
table and state machine, and checked against the scenarios of the test file.
-/

namespace AgentStudio

/-- Modelled from the spec: the kind tag of a mergeable chunk update
(agent message, user message, agent reasoning/"thought"), matching the
`SessionUpdate` chunk variants used by the tests. -/
inductive ChunkKind where
  | agentMessage
  | userMessage
  | agentThought
deriving DecidableEq, Repr

/-- Modelled from the spec: tags for the non-chunk protocol events
(tool calls, plans, completion markers, mode changes); they are atomic and
never merged. -/
inductive NonChunkKind where
  | toolCall
  | toolCallUpdate
  | plan
  | availableCommandsUpdate
  | currentModeUpdate
  | agentMessageComplete (is_error : Bool)
deriving DecidableEq, Repr

/-- Modelled from the spec: one protocol event.  A chunk update carries a
`ChunkKind` and a text fragment; a non-chunk update is any other event. -/
inductive Update where
  | chunk (kind : ChunkKind) (text : String)
  | nonChunk (kind : NonChunkKind)
deriving DecidableEq, Repr

/-- Modelled from the spec: the durable unit
`{ update : Update, recorded_at : Timestamp }`; immutable once written. -/
structure MessageLogEntry where
  update : Update
  recorded_at : Nat
deriving DecidableEq, Repr

/-- Modelled from the spec: the transient per-session accumulator
`SessionBufferState`.  A buffer exists only while it holds at least one
unflushed fragment, so `pending_kind` is not optional here: absence of the
buffer is represented by absence of the map entry. -/
structure SessionBufferState where
  pending_kind : ChunkKind
  accumulated_text : String
  timer_generation : Nat
deriving DecidableEq, Repr

/-- Modelled from the spec: the durable append-only per-session log, a map
from session id to the ordered sequence of sealed entries. -/
def MessageStore : Type := String → List MessageLogEntry

/-- Modelled from the spec: I/O failure during append or load. -/
inductive StoreError where
  | ioFailure (msg : String)
deriving DecidableEq, Repr

/-- A store with no entries for any session. -/
def MessageStore.empty : MessageStore := fun _ => []

/-- Modelled from the spec: append one entry to a session's log; sequential
per session, durable, no buffering inside the store. -/
def MessageStore.append (st : MessageStore) (sid : String) (e : MessageLogEntry) :
    MessageStore :=
  fun x => if x = sid then st x ++ [e] else st x

/-- Append a whole sequence of entries, in order, to one session's log. -/
def MessageStore.appendAll (st : MessageStore) (sid : String)
    (es : List MessageLogEntry) : MessageStore :=
  es.foldl (fun a e => MessageStore.append a sid e) st

/-- Modelled from the spec: load replays a session's entries in the exact
order they were appended; a session with no entries yields an empty
sequence, not an error. -/
def MessageStore.load (st : MessageStore) (sid : String) :
    Except StoreError (List MessageLogEntry) :=
  Except.ok (st sid)

/-- Modelled from the spec: the whole service state — the in-memory map of
session id to open buffer, the durable store, a per-session generation
counter for timer arming, and the host clock used to stamp sealed
entries. -/
structure PersistenceService where
  buffers : List (String × SessionBufferState)
  store : MessageStore
  next_generation : String → Nat
  clock : Nat

/-- Look a session's open buffer up in the in-memory map. -/
def lookupBuffer : List (String × SessionBufferState) → String →
    Option SessionBufferState
  | [], _ => none
  | (k, b) :: rest, sid => if k = sid then some b else lookupBuffer rest sid

/-- Remove a session's entry from the in-memory map. -/
def eraseBuffer (sid : String) :
    List (String × SessionBufferState) → List (String × SessionBufferState)
  | [] => []
  | (k, b) :: rest =>
    if k = sid then eraseBuffer sid rest else (k, b) :: eraseBuffer sid rest

/-- Insert or replace a session's buffer in the in-memory map. -/
def setBuffer (sid : String) (b : SessionBufferState)
    (bs : List (String × SessionBufferState)) :
    List (String × SessionBufferState) :=
  (sid, b) :: eraseBuffer sid bs

/-- Increment the per-session timer-generation counter for `sid`. -/
def bumpGen (f : String → Nat) (sid : String) : String → Nat :=
  fun x => if x = sid then f x + 1 else f x

/-- The single durable entry a seal of `sid`'s current buffer would
produce: one chunk update holding the accumulated text, or nothing when no
buffer is open. -/
def sealTail (s : PersistenceService) (sid : String) : List MessageLogEntry :=
  match lookupBuffer s.buffers sid with
  | some b => [⟨Update.chunk b.pending_kind b.accumulated_text, s.clock⟩]
  | none => []

/-- Modelled from the spec: seal — finalize `sid`'s open buffer into one
immutable durable entry and drop the buffer; a no-op when no buffer is
open. -/
def sealBuffer (s : PersistenceService) (sid : String) : PersistenceService :=
  match lookupBuffer s.buffers sid with
  | none => s
  | some b =>
    { s with
      buffers := eraseBuffer sid s.buffers
      store := s.store.append sid
        ⟨Update.chunk b.pending_kind b.accumulated_text, s.clock⟩ }

/-- Modelled from the spec (§4.1): the three possible merge decisions. -/
inductive Decision where
  | AppendToBuffer
  | SealThenBuffer
  | SealThenWriteDirect
deriving DecidableEq, Repr

/-- Modelled from the spec (§4.1): the pure merge decision function.  Rules
in order: non-chunk updates are written directly (sealing first if needed);
a chunk with no open buffer or a same-kind buffer is appended; a chunk
against a different-kind buffer seals then starts a new buffer. -/
def mergeDecide (current : Option SessionBufferState) (incoming : Update) :
    Decision :=
  match incoming with
  | Update.nonChunk _ => Decision.SealThenWriteDirect
  | Update.chunk k _ =>
    match current with
    | none => Decision.AppendToBuffer
    | some b =>
      if b.pending_kind = k then Decision.AppendToBuffer
      else Decision.SealThenBuffer

/-- Modelled from the spec (§4.4): `save_update` runs the merge decision and
its immediate side effects.  Chunk updates are buffered (creating, extending
or seal-then-replacing the buffer, re-arming the inactivity timer with a
fresh generation); non-chunk updates seal any open buffer and are then
written directly to the store. -/
def save_update (s : PersistenceService) (sid : String) (u : Update) :
    PersistenceService :=
  match mergeDecide (lookupBuffer s.buffers sid) u, u with
  | Decision.SealThenWriteDirect, _ =>
    let s₁ := sealBuffer s sid
    { s₁ with store := s₁.store.append sid ⟨u, s₁.clock⟩ }
  | Decision.AppendToBuffer, Update.chunk k t =>
    let prev := match lookupBuffer s.buffers sid with
      | some b => b.accumulated_text
      | none => ""
    { s with
      buffers := setBuffer sid ⟨k, prev ++ t, s.next_generation sid⟩ s.buffers
      next_generation := bumpGen s.next_generation sid }
  | Decision.SealThenBuffer, Update.chunk k t =>
    let s₁ := sealBuffer s sid
    { s₁ with
      buffers := setBuffer sid ⟨k, t, s₁.next_generation sid⟩ s₁.buffers
      next_generation := bumpGen s₁.next_generation sid }
  | _, Update.nonChunk _ => s

/-- Modelled from the spec (§4.2): the deferred inactivity-timer callback
for session `sid`, carrying the `timer_generation` captured when it was
armed.  It seals the buffer only if the buffer still exists and its current
generation matches the captured one; otherwise it is a no-op. -/
def onTimerFired (s : PersistenceService) (sid : String) (g : Nat) :
    PersistenceService :=
  match lookupBuffer s.buffers sid with
  | none => s
  | some b => if b.timer_generation = g then sealBuffer s sid else s

/-- Modelled from the spec (§4.2): explicit per-session flush — seal
immediately, bypassing the timer; a no-op when no buffer is open. -/
def flush_session (s : PersistenceService) (sid : String) : PersistenceService :=
  sealBuffer s sid

/-- Modelled from the spec (§4.2, §5): flush_all snapshots the current set
of session ids with open buffers, then seals each one independently. -/
def flush_all (s : PersistenceService) : PersistenceService :=
  (s.buffers.map (fun p => p.1)).foldl (fun acc sid => sealBuffer acc sid) s

/-- Modelled from the spec (§4.4): `load_messages` returns the already
sealed entries for the session, in order, and performs no state change (no
implicit flush).  The returned state component makes the frame condition
explicit. -/
def load_messages (s : PersistenceService) (sid : String) :
    List MessageLogEntry × PersistenceService :=
  (s.store sid, s)

/-- The service as freshly constructed: no buffers, an empty store. -/
def initState : PersistenceService :=
  { buffers := []
    store := MessageStore.empty
    next_generation := fun _ => 0
    clock := 0 }

/-- Save a list of same-kind chunk fragments for one session, in order. -/
def saveChunks (s : PersistenceService) (sid : String) (k : ChunkKind)
    (ts : List String) : PersistenceService :=
  ts.foldl (fun acc t => save_update acc sid (Update.chunk k t)) s

/-- Byte-for-byte concatenation of fragment texts in arrival order, with no
inserted separators. -/
def concatTexts : List String → String
  | [] => ""
  | t :: ts => t ++ concatTexts ts

/-- The text carried by a durable entry's update (empty for non-chunk
updates, which carry no text in this model). -/
def entryText (e : MessageLogEntry) : String :=
  match e.update with
  | Update.chunk _ t => t
  | Update.nonChunk _ => ""

/-! ## Concrete scenario states (mirroring `persistence_service_test.rs`) -/

/-- The five fragments of `test_chunk_merging_basic`. -/
def mergeDemoTexts : List String :=
  ["Chunk0 ", "Chunk1 ", "Chunk2 ", "Chunk3 ", "Chunk4 "]

/-- Scenario `test_chunk_type_change_flushes_buffer`: three agent chunks followed by
one user chunk. -/
def kindChangeState : PersistenceService :=
  save_update
    (saveChunks initState "test-type-change" ChunkKind.agentMessage
      ["Agent0 ", "Agent1 ", "Agent2 "])
    "test-type-change" (Update.chunk ChunkKind.userMessage "User message")

/-- Scenario `test_non_chunk_message_flushes_buffer`: three agent chunks followed by
one completion marker (a non-chunk update), with no flush afterwards. -/
def nonChunkState : PersistenceService :=
  save_update
    (saveChunks initState "test-non-chunk" ChunkKind.agentMessage
      ["Agent0 ", "Agent1 ", "Agent2 "])
    "test-non-chunk" (Update.nonChunk (NonChunkKind.agentMessageComplete false))

/-- Scenario `test_explicit_flush_session`: three buffered agent chunks, not yet
flushed. -/
def explicitFlushState : PersistenceService :=
  saveChunks initState "test-explicit-flush" ChunkKind.agentMessage
    ["Chunk0 ", "Chunk1 ", "Chunk2 "]

/-- Scenario `test_flush_all_multiple_sessions`: three sessions, each holding three
buffered same-kind chunks. -/
def flushAllState : PersistenceService :=
  saveChunks
    (saveChunks
      (saveChunks initState "test-flush-all-0" ChunkKind.agentMessage
        ["Chunk0 ", "Chunk1 ", "Chunk2 "])
      "test-flush-all-1" ChunkKind.agentMessage
      ["Chunk0 ", "Chunk1 ", "Chunk2 "])
    "test-flush-all-2" ChunkKind.agentMessage
    ["Chunk0 ", "Chunk1 ", "Chunk2 "]

/-- Scenario `test_rapid_chunk_arrival`: 100 single-digit fragments, digit `i % 10`
for the i-th arrival. -/
def rapidChunkTexts : List String :=
  (List.range 100).map (fun i => String.mk [Nat.digitChar (i % 10)])

/-- The service state after rapidly saving all 100 digit chunks for one
session, with no timer having fired in between. -/
def rapidState : PersistenceService :=
  saveChunks initState "test-rapid-arrival" ChunkKind.agentMessage
    rapidChunkTexts

/-- The state `rapidState` after the inactivity timeout elapses: the last-armed timer
(generation 99) fires and seals the buffer. -/
def rapidSealed : PersistenceService :=
  onTimerFired rapidState "test-rapid-arrival" 99

/-! ## The display helper `extract_text_from_content`
(`src/panels/conversation/helpers.rs`)

Rust strings are UTF-8 encoded; they are modelled as lists of unicode
scalar values (`List Char`), with byte positions computed from each
character's UTF-8 size.  A Rust byte-slice `&text[..k]` panics unless `k`
is in bounds and falls on a character boundary; the model returns `none`
exactly in the panicking cases. -/

/-- The UTF-8 byte length of a Rust string. -/
def utf8Len (s : List Char) : Nat := (s.map Char.utf8Size).sum

/-- The value `takePrefixBytes s k` is the prefix of `s` occupying exactly `k` UTF-8
bytes (`some` branch), or `none` when `k` exceeds the byte length or falls
inside a multi-byte character — the cases where Rust's `&s[..k]` panics. -/
def takePrefixBytes : List Char → Nat → Option (List Char)
  | _, 0 => some []
  | [], Nat.succ _ => none
  | c :: rest, Nat.succ k =>
    if c.utf8Size ≤ k + 1 then
      (takePrefixBytes rest (k + 1 - c.utf8Size)).map (fun l => c :: l)
    else none

/-- Whether byte position `k` is in bounds and on a UTF-8 character
boundary of `s` (Rust's `s.is_char_boundary(k)` for `k ≤ s.len()`). -/
def isCharBoundaryB : List Char → Nat → Bool
  | _, 0 => true
  | [], Nat.succ _ => false
  | c :: rest, Nat.succ k =>
    if c.utf8Size ≤ k + 1 then isCharBoundaryB rest (k + 1 - c.utf8Size)
    else false

/-- The `EmbeddedResourceResource` payload of an embedded resource block;
the trailing constructor stands for the `_ => "[Unknown Resource]"` arm. -/
inductive EmbeddedResourceResource where
  | textResourceContents (uri : List Char) (text : List Char)
  | blobResourceContents (uri : List Char)
  | otherResource
deriving DecidableEq, Repr

/-- The `ContentBlock` protocol type as matched by
`extract_text_from_content`; the trailing constructor stands for the
`_ => "[Unknown Content]"` arm. -/
inductive ContentBlock where
  | text (text : List Char)
  | image (mime_type : List Char)
  | audio (mime_type : List Char)
  | resourceLink (nm : List Char)
  | resource (r : EmbeddedResourceResource)
  | otherContent
deriving DecidableEq, Repr

/-- The function `extract_text_from_content` from
`src/panels/conversation/helpers.rs:14-41`.  The embedded-text-resource arm
evaluates Rust's `&text_res.text[..text_res.text.len().min(200)]`, a byte
slice that panics when the truncation index is not a character boundary;
`none` models that panic. -/
def extract_text_from_content (content : ContentBlock) : Option (List Char) :=
  match content with
  | ContentBlock.text t => some t
  | ContentBlock.image m => some ("[Image: ".data ++ m ++ "]".data)
  | ContentBlock.audio m => some ("[Audio: ".data ++ m ++ "]".data)
  | ContentBlock.resourceLink n => some ("[Resource: ".data ++ n ++ "]".data)
  | ContentBlock.resource r =>
    match r with
    | EmbeddedResourceResource.textResourceContents uri text =>
      (takePrefixBytes text (min (utf8Len text) 200)).map
        (fun tr => "[Resource: ".data ++ uri ++ "]\n".data ++ tr)
    | EmbeddedResourceResource.blobResourceContents uri =>
      some ("[Binary Resource: ".data ++ uri ++ "]".data)
    | EmbeddedResourceResource.otherResource => some "[Unknown Resource]".data
  | ContentBlock.otherContent => some "[Unknown Content]".data

/-- True exactly on the embedded-text-resource inputs, the one arm of
`extract_text_from_content` that slices by bytes. -/
def readsTextResource : ContentBlock → Bool
  | ContentBlock.resource (EmbeddedResourceResource.textResourceContents _ _) =>
    true
  | _ => false

/-- A 201-byte text whose byte position 200 falls inside the final
two-byte character: 199 ASCII characters followed by one `'é'`. -/
def badResourceText : List Char := List.replicate 199 'a' ++ ['é']

/-! ## Basic lemmas about the in-memory buffer map -/

theorem lookupBuffer_setBuffer_self (sid : String) (b : SessionBufferState)
    (bs : List (String × SessionBufferState)) :
    lookupBuffer (setBuffer sid b bs) sid = some b := by
  simp [setBuffer, lookupBuffer]

theorem lookupBuffer_eraseBuffer_ne (sid sid' : String)
    (bs : List (String × SessionBufferState)) (h : sid' ≠ sid) :
    lookupBuffer (eraseBuffer sid bs) sid' = lookupBuffer bs sid' := by
  induction bs with
  | nil => rfl
  | cons p rest ih =>
    obtain ⟨pk, pb⟩ := p
    have h' : sid ≠ sid' := fun hc => h hc.symm
    by_cases hp : pk = sid
    · simp [eraseBuffer, lookupBuffer, hp, h', ih]
    · by_cases hk : pk = sid'
      · simp [eraseBuffer, lookupBuffer, hp, hk, h, ih]
      · simp [eraseBuffer, lookupBuffer, hp, hk, ih]

theorem lookupBuffer_eraseBuffer_self (sid : String)
    (bs : List (String × SessionBufferState)) :
    lookupBuffer (eraseBuffer sid bs) sid = none := by
  induction bs with
  | nil => rfl
  | cons p rest ih =>
    obtain ⟨pk, pb⟩ := p
    by_cases hp : pk = sid
    · simp [eraseBuffer, lookupBuffer, hp, ih]
    · simp [eraseBuffer, lookupBuffer, hp, ih]

theorem lookupBuffer_setBuffer_ne (sid sid' : String) (b : SessionBufferState)
    (bs : List (String × SessionBufferState)) (h : sid' ≠ sid) :
    lookupBuffer (setBuffer sid b bs) sid' = lookupBuffer bs sid' := by
  have h2 := lookupBuffer_eraseBuffer_ne sid sid' bs h
  have h1 : sid ≠ sid' := fun hc => h hc.symm
  simp [setBuffer, lookupBuffer, h1, h2]

theorem eraseBuffer_of_lookup_none (sid : String)
    (bs : List (String × SessionBufferState))
    (h : lookupBuffer bs sid = none) : eraseBuffer sid bs = bs := by
  induction bs with
  | nil => rfl
  | cons p rest ih =>
    obtain ⟨pk, pb⟩ := p
    by_cases hp : pk = sid
    · simp [lookupBuffer, hp] at h
    · simp only [lookupBuffer, hp, if_false] at h
      simp [eraseBuffer, hp, ih h]

/-! ## Effect lemmas for sealing and saving -/

theorem sealBuffer_store (s : PersistenceService) (sid sid' : String) :
    (sealBuffer s sid).store sid' =
      s.store sid' ++ (if sid' = sid then sealTail s sid else []) := by
  unfold sealBuffer sealTail
  cases hb : lookupBuffer s.buffers sid with
  | none => by_cases h : sid' = sid <;> simp [h]
  | some b =>
    by_cases h : sid' = sid <;> simp [MessageStore.append, h]

theorem sealBuffer_buffers (s : PersistenceService) (sid : String) :
    (sealBuffer s sid).buffers = eraseBuffer sid s.buffers := by
  unfold sealBuffer
  cases hb : lookupBuffer s.buffers sid with
  | none => exact (eraseBuffer_of_lookup_none sid s.buffers hb).symm
  | some b => rfl

theorem sealBuffer_clock (s : PersistenceService) (sid : String) :
    (sealBuffer s sid).clock = s.clock := by
  unfold sealBuffer
  cases lookupBuffer s.buffers sid <;> rfl

theorem sealBuffer_gen (s : PersistenceService) (sid : String) :
    (sealBuffer s sid).next_generation = s.next_generation := by
  unfold sealBuffer
  cases lookupBuffer s.buffers sid <;> rfl

theorem sealTail_of_lookup (s : PersistenceService) (sid : String)
    (b : SessionBufferState) (h : lookupBuffer s.buffers sid = some b) :
    sealTail s sid =
      [⟨Update.chunk b.pending_kind b.accumulated_text, s.clock⟩] := by
  unfold sealTail; rw [h]

theorem save_update_chunk_nobuf (s : PersistenceService) (sid : String)
    (k : ChunkKind) (t : String) (h : lookupBuffer s.buffers sid = none) :
    save_update s sid (Update.chunk k t) =
      { s with
        buffers := setBuffer sid ⟨k, t, s.next_generation sid⟩ s.buffers
        next_generation := bumpGen s.next_generation sid } := by
  unfold save_update mergeDecide
  rw [h]
  rfl

theorem save_update_chunk_same (s : PersistenceService) (sid : String)
    (k : ChunkKind) (t : String) (b : SessionBufferState)
    (h : lookupBuffer s.buffers sid = some b) (hk : b.pending_kind = k) :
    save_update s sid (Update.chunk k t) =
      { s with
        buffers := setBuffer sid
          ⟨k, b.accumulated_text ++ t, s.next_generation sid⟩ s.buffers
        next_generation := bumpGen s.next_generation sid } := by
  unfold save_update mergeDecide
  rw [h]
  simp [hk]

theorem save_update_chunk_diff (s : PersistenceService) (sid : String)
    (k : ChunkKind) (t : String) (b : SessionBufferState)
    (h : lookupBuffer s.buffers sid = some b) (hk : b.pending_kind ≠ k) :
    save_update s sid (Update.chunk k t) =
      { sealBuffer s sid with
        buffers := setBuffer sid ⟨k, t, (sealBuffer s sid).next_generation sid⟩
          (sealBuffer s sid).buffers
        next_generation :=
          bumpGen (sealBuffer s sid).next_generation sid } := by
  unfold save_update mergeDecide
  rw [h]
  simp [hk]

theorem save_update_nonChunk (s : PersistenceService) (sid : String)
    (n : NonChunkKind) :
    save_update s sid (Update.nonChunk n) =
      { sealBuffer s sid with
        store := (sealBuffer s sid).store.append sid
          ⟨Update.nonChunk n, (sealBuffer s sid).clock⟩ } := by
  rfl

/-- Saving a list of same-kind chunk fragments onto an open same-kind buffer
leaves the store and clock untouched and accumulates the fragment texts, in
order, onto the buffer. -/
theorem saveChunks_open (sid : String) (k : ChunkKind) (ts : List String) :
    ∀ (s : PersistenceService) (b : SessionBufferState),
      lookupBuffer s.buffers sid = some b → b.pending_kind = k →
      (saveChunks s sid k ts).store = s.store ∧
      (saveChunks s sid k ts).clock = s.clock ∧
      ∃ g, lookupBuffer (saveChunks s sid k ts).buffers sid =
        some ⟨k, b.accumulated_text ++ concatTexts ts, g⟩ := by
  induction ts with
  | nil =>
    intro s b h hk
    obtain ⟨pk, acc, tg⟩ := b
    refine ⟨rfl, rfl, tg, ?_⟩
    show lookupBuffer s.buffers sid = _
    rw [h]
    simp only [concatTexts, String.append_empty]
    simp at hk
    rw [hk]
  | cons t ts ih =>
    intro s b h hk
    have h1 := save_update_chunk_same s sid k t b h hk
    have hlook : lookupBuffer (save_update s sid (Update.chunk k t)).buffers
        sid = some ⟨k, b.accumulated_text ++ t, s.next_generation sid⟩ := by
      rw [h1]
      exact lookupBuffer_setBuffer_self sid _ s.buffers
    obtain ⟨hst, hck, g, hbuf⟩ :=
      ih (save_update s sid (Update.chunk k t))
        ⟨k, b.accumulated_text ++ t, s.next_generation sid⟩ hlook rfl
    have hfold : saveChunks s sid k (t :: ts) =
        saveChunks (save_update s sid (Update.chunk k t)) sid k ts := rfl
    rw [hfold]
    refine ⟨?_, ?_, g, ?_⟩
    · rw [hst, h1]
    · rw [hck, h1]
    · rw [hbuf]
      simp only [concatTexts, String.append_assoc]

/-- C1.  Merge correctness: saving N ≥ 1 consecutive same-kind chunk
fragments for one session with no open buffer and no intervening different
update, then flushing, appends to that session's log exactly one entry whose
text is the byte-for-byte concatenation of the N fragment texts in arrival
order, with no inserted separators. -/
theorem merge_correctness (s : PersistenceService) (sid : String)
    (k : ChunkKind) (ts : List String)
    (hb : lookupBuffer s.buffers sid = none) (hts : ts ≠ []) :
    (load_messages (flush_session (saveChunks s sid k ts) sid) sid).1 =
      (load_messages s sid).1 ++
        [⟨Update.chunk k (concatTexts ts), s.clock⟩] := by
  cases ts with
  | nil => exact absurd rfl hts
  | cons t ts =>
    have h1 := save_update_chunk_nobuf s sid k t hb
    have hlook : lookupBuffer (save_update s sid (Update.chunk k t)).buffers
        sid = some ⟨k, t, s.next_generation sid⟩ := by
      rw [h1]
      exact lookupBuffer_setBuffer_self sid _ s.buffers
    obtain ⟨hst, hck, g, hbuf⟩ :=
      saveChunks_open sid k ts (save_update s sid (Update.chunk k t))
        ⟨k, t, s.next_generation sid⟩ hlook rfl
    have hfold : saveChunks s sid k (t :: ts) =
        saveChunks (save_update s sid (Update.chunk k t)) sid k ts := rfl
    show (flush_session (saveChunks s sid k (t :: ts)) sid).store sid =
      s.store sid ++ _
    rw [hfold]
    unfold flush_session
    rw [sealBuffer_store, if_pos rfl,
      sealTail_of_lookup _ sid ⟨k, t ++ concatTexts ts, g⟩ hbuf,
      hst, hck, h1]
    rfl

/-- Witness for C1, the `test_chunk_merging_basic` scenario: five agent
chunks `"Chunk0 ".."Chunk4 "` merge into one entry with the concatenated
text. -/
theorem merge_correctness_witness :
    (load_messages (flush_session
      (saveChunks initState "test-merge-basic" ChunkKind.agentMessage
        mergeDemoTexts) "test-merge-basic") "test-merge-basic").1 =
    (load_messages initState "test-merge-basic").1 ++
      [⟨Update.chunk ChunkKind.agentMessage (concatTexts mergeDemoTexts),
        initState.clock⟩] :=
  merge_correctness initState "test-merge-basic" ChunkKind.agentMessage
    mergeDemoTexts rfl (by decide)

/-- C2.  Kind-change seals: a chunk update arriving against an open buffer
of a different kind seals the buffer as one entry and starts a new buffer
holding exactly the incoming fragment; in particular three agent chunks
followed by one user chunk, then a flush, yields exactly two entries — the
merged agent text, then the user chunk text unmodified. -/
theorem kind_change_seals :
    (∀ (s : PersistenceService) (sid : String) (k : ChunkKind) (t : String)
      (b : SessionBufferState),
      lookupBuffer s.buffers sid = some b → b.pending_kind ≠ k →
      (load_messages (save_update s sid (Update.chunk k t)) sid).1 =
        (load_messages s sid).1 ++
          [⟨Update.chunk b.pending_kind b.accumulated_text, s.clock⟩] ∧
      lookupBuffer (save_update s sid (Update.chunk k t)).buffers sid =
        some ⟨k, t, s.next_generation sid⟩) ∧
    (load_messages (flush_session kindChangeState "test-type-change")
        "test-type-change").1 =
      [⟨Update.chunk ChunkKind.agentMessage "Agent0 Agent1 Agent2 ", 0⟩,
       ⟨Update.chunk ChunkKind.userMessage "User message", 0⟩] := by
  constructor
  · intro s sid k t b h hk
    have h1 := save_update_chunk_diff s sid k t b h hk
    constructor
    · show (save_update s sid (Update.chunk k t)).store sid = _
      rw [h1]
      show (sealBuffer s sid).store sid = _
      rw [sealBuffer_store, if_pos rfl, sealTail_of_lookup s sid b h]
      rfl
    · rw [h1]
      show lookupBuffer (setBuffer sid _ _) sid = _
      rw [lookupBuffer_setBuffer_self, sealBuffer_gen]
  · decide

/-- Witness for C2: `test_chunk_type_change_flushes_buffer` — in the state
holding the three merged agent chunks, the arriving user chunk seals the
agent entry and opens a fresh user buffer. -/
theorem kind_change_seals_witness :
    (load_messages (save_update explicitFlushState "test-explicit-flush"
        (Update.chunk ChunkKind.userMessage "User message"))
        "test-explicit-flush").1 =
      (load_messages explicitFlushState "test-explicit-flush").1 ++
        [⟨Update.chunk ChunkKind.agentMessage "Chunk0 Chunk1 Chunk2 ",
          explicitFlushState.clock⟩] ∧
    lookupBuffer (save_update explicitFlushState "test-explicit-flush"
        (Update.chunk ChunkKind.userMessage "User message")).buffers
        "test-explicit-flush" =
      some ⟨ChunkKind.userMessage, "User message",
        explicitFlushState.next_generation "test-explicit-flush"⟩ :=
  kind_change_seals.1 explicitFlushState "test-explicit-flush"
    ChunkKind.userMessage "User message"
    ⟨ChunkKind.agentMessage, "Chunk0 Chunk1 Chunk2 ", 2⟩ (by decide) (by decide)

/-- C3.  Non-chunk immediacy: saving a non-chunk update seals any open
buffer as one entry and then writes the incoming update directly as its own
entry, leaving no buffer behind; in particular three agent chunks followed
by one completion marker yield two entries with no flush and no timeout. -/
theorem non_chunk_immediacy :
    (∀ (s : PersistenceService) (sid : String) (n : NonChunkKind),
      (load_messages (save_update s sid (Update.nonChunk n)) sid).1 =
        (load_messages s sid).1 ++ sealTail s sid ++
          [⟨Update.nonChunk n, s.clock⟩] ∧
      lookupBuffer (save_update s sid (Update.nonChunk n)).buffers sid =
        none) ∧
    (load_messages nonChunkState "test-non-chunk").1 =
      [⟨Update.chunk ChunkKind.agentMessage "Agent0 Agent1 Agent2 ", 0⟩,
       ⟨Update.nonChunk (NonChunkKind.agentMessageComplete false), 0⟩] ∧
    lookupBuffer nonChunkState.buffers "test-non-chunk" = none := by
  refine ⟨?_, by decide, by decide⟩
  intro s sid n
  have h1 := save_update_nonChunk s sid n
  constructor
  · show (save_update s sid (Update.nonChunk n)).store sid = _
    rw [h1]
    show ((sealBuffer s sid).store.append sid _) sid = _
    rw [MessageStore.append, if_pos rfl, sealBuffer_store, if_pos rfl,
      sealBuffer_clock]
    rfl
  · rw [h1]
    show lookupBuffer (sealBuffer s sid).buffers sid = none
    rw [sealBuffer_buffers]
    exact lookupBuffer_eraseBuffer_self sid s.buffers

/-- C4.  `flush_session`: with an open buffer it seals immediately — the
sealed entry is readable at once, the buffer is gone, and any later fire of
the pending (or any stale) timer is a no-op, which is the advisory
cancellation; with no open buffer it is a no-op leaving the whole state
unchanged. -/
theorem flush_session_spec (s : PersistenceService) (sid : String) :
    (∀ b, lookupBuffer s.buffers sid = some b →
      (load_messages (flush_session s sid) sid).1 =
        (load_messages s sid).1 ++
          [⟨Update.chunk b.pending_kind b.accumulated_text, s.clock⟩] ∧
      lookupBuffer (flush_session s sid).buffers sid = none ∧
      ∀ g, onTimerFired (flush_session s sid) sid g = flush_session s sid) ∧
    (lookupBuffer s.buffers sid = none → flush_session s sid = s) := by
  constructor
  · intro b h
    have hnone : lookupBuffer (flush_session s sid).buffers sid = none := by
      show lookupBuffer (sealBuffer s sid).buffers sid = none
      rw [sealBuffer_buffers]
      exact lookupBuffer_eraseBuffer_self sid s.buffers
    refine ⟨?_, hnone, ?_⟩
    · show (sealBuffer s sid).store sid = _
      rw [sealBuffer_store, if_pos rfl, sealTail_of_lookup s sid b h]
      rfl
    · intro g
      unfold onTimerFired
      rw [hnone]
  · intro h
    show sealBuffer s sid = s
    unfold sealBuffer
    rw [h]

/-- Witness for C4, the `test_explicit_flush_session` scenario: with a very
long timeout configured and three buffered chunks, an explicit flush makes
the merged entry readable at once, and the armed timer (generation 2) fires
as a no-op afterwards; a second flush of the now-empty session changes
nothing. -/
theorem flush_session_spec_witness :
    ((load_messages (flush_session explicitFlushState "test-explicit-flush")
        "test-explicit-flush").1 =
      (load_messages explicitFlushState "test-explicit-flush").1 ++
        [⟨Update.chunk ChunkKind.agentMessage "Chunk0 Chunk1 Chunk2 ",
          explicitFlushState.clock⟩] ∧
      lookupBuffer (flush_session explicitFlushState
        "test-explicit-flush").buffers "test-explicit-flush" = none ∧
      ∀ g, onTimerFired (flush_session explicitFlushState
          "test-explicit-flush") "test-explicit-flush" g =
        flush_session explicitFlushState "test-explicit-flush") ∧
    flush_session (flush_session explicitFlushState "test-explicit-flush")
        "test-explicit-flush" =
      flush_session explicitFlushState "test-explicit-flush" :=
  ⟨(flush_session_spec explicitFlushState "test-explicit-flush").1
      ⟨ChunkKind.agentMessage, "Chunk0 Chunk1 Chunk2 ", 2⟩ (by decide),
    (flush_session_spec
        (flush_session explicitFlushState "test-explicit-flush")
        "test-explicit-flush").2
      (by decide)⟩

/-- Sealing one session leaves another session's seal payload unchanged. -/
theorem sealTail_sealBuffer_ne (s : PersistenceService) (sid id : String)
    (h : sid ≠ id) : sealTail (sealBuffer s id) sid = sealTail s sid := by
  unfold sealTail
  rw [sealBuffer_buffers, lookupBuffer_eraseBuffer_ne id sid s.buffers h,
    sealBuffer_clock]

/-- Effect of sealing a snapshot of session ids one after the other on each
session's durable log. -/
theorem foldlSeal_store (ids : List String) :
    ∀ (s : PersistenceService) (sid : String), ids.Nodup →
      (ids.foldl (fun acc i => sealBuffer acc i) s).store sid =
        s.store sid ++ (if sid ∈ ids then sealTail s sid else []) := by
  induction ids with
  | nil =>
    intro s sid _
    simp
  | cons id rest ih =>
    intro s sid hnd
    have hid : id ∉ rest := (List.nodup_cons.mp hnd).1
    have hnd' : rest.Nodup := (List.nodup_cons.mp hnd).2
    show (rest.foldl (fun acc i => sealBuffer acc i) (sealBuffer s id)).store
        sid = _
    rw [ih (sealBuffer s id) sid hnd', sealBuffer_store]
    by_cases h1 : sid = id
    · subst h1
      rw [if_pos rfl, if_neg hid, if_pos (List.mem_cons_self sid rest)]
      simp
    · rw [if_neg h1]
      by_cases h2 : sid ∈ rest
      · rw [if_pos h2, if_pos (List.mem_cons_of_mem id h2),
          sealTail_sealBuffer_ne s sid id h1]
        simp
      · have h3 : sid ∉ id :: rest := by
          simp [h1, h2]
        rw [if_neg h2, if_neg h3]
        simp

/-- Effect of sealing a snapshot of session ids on the in-memory buffer
map. -/
theorem foldlSeal_lookup (ids : List String) :
    ∀ (s : PersistenceService) (sid : String),
      lookupBuffer (ids.foldl (fun acc i => sealBuffer acc i) s).buffers
        sid =
      if sid ∈ ids then none else lookupBuffer s.buffers sid := by
  induction ids with
  | nil =>
    intro s sid
    simp
  | cons id rest ih =>
    intro s sid
    show lookupBuffer
        (rest.foldl (fun acc i => sealBuffer acc i) (sealBuffer s id)).buffers
        sid = _
    rw [ih]
    by_cases h2 : sid ∈ rest
    · rw [if_pos h2, if_pos (List.mem_cons_of_mem id h2)]
    · rw [if_neg h2, sealBuffer_buffers]
      by_cases h1 : sid = id
      · subst h1
        rw [lookupBuffer_eraseBuffer_self,
          if_pos (List.mem_cons_self sid rest)]
      · have h3 : sid ∉ id :: rest := by
          simp [h1, h2]
        rw [lookupBuffer_eraseBuffer_ne id sid s.buffers h1, if_neg h3]

/-- A session absent from the buffer map's key list has no open buffer. -/
theorem lookupBuffer_none_of_not_mem
    (bs : List (String × SessionBufferState)) (sid : String)
    (h : sid ∉ bs.map (fun p => p.1)) : lookupBuffer bs sid = none := by
  induction bs with
  | nil => rfl
  | cons p rest ih =>
    obtain ⟨pk, pb⟩ := p
    simp only [List.map_cons, List.mem_cons] at h
    push_neg at h
    have hk : pk ≠ sid := fun hc => h.1 hc.symm
    simp [lookupBuffer, hk, ih h.2]

/-- C5.  `flush_all` seals every session with a currently open buffer and
preserves session isolation: each session's log is extended by exactly its
own buffer's sealed group (and by nothing when it had no open buffer), and
afterwards no session has an open buffer. -/
theorem flush_all_isolates (s : PersistenceService)
    (hnd : (s.buffers.map (fun p => p.1)).Nodup) :
    (∀ sid, (load_messages (flush_all s) sid).1 =
      (load_messages s sid).1 ++ sealTail s sid) ∧
    (∀ sid, lookupBuffer (flush_all s).buffers sid = none) := by
  constructor
  · intro sid
    show (flush_all s).store sid = s.store sid ++ sealTail s sid
    unfold flush_all
    rw [foldlSeal_store (s.buffers.map (fun p => p.1)) s sid hnd]
    by_cases h : sid ∈ s.buffers.map (fun p => p.1)
    · rw [if_pos h]
    · rw [if_neg h]
      unfold sealTail
      rw [lookupBuffer_none_of_not_mem s.buffers sid h]
  · intro sid
    unfold flush_all
    rw [foldlSeal_lookup (s.buffers.map (fun p => p.1)) s sid]
    by_cases h : sid ∈ s.buffers.map (fun p => p.1)
    · rw [if_pos h]
    · rw [if_neg h]
      exact lookupBuffer_none_of_not_mem s.buffers sid h

/-- Witness for C5, the `test_flush_all_multiple_sessions` scenario: three
sessions each holding three buffered chunks; one `flush_all` yields exactly
one merged entry per session, each containing only its own content, and
leaves no open buffer anywhere. -/
theorem flush_all_isolates_witness :
    (∀ sid, (load_messages (flush_all flushAllState) sid).1 =
      (load_messages flushAllState sid).1 ++ sealTail flushAllState sid) ∧
    (∀ sid, lookupBuffer (flush_all flushAllState).buffers sid = none) :=
  flush_all_isolates flushAllState (by decide)

/-- C6.  `load_messages` returns exactly the already-sealed entries in
order, performs no state change whatsoever (in particular it leaves any
open buffer, its accumulated text and its pending timer untouched), and
excludes buffered-but-unflushed content: that content appears only after an
explicit flush. -/
theorem load_messages_no_implicit_flush (s : PersistenceService)
    (sid : String) :
    (load_messages s sid).2 = s ∧
    (load_messages s sid).1 = s.store sid ∧
    (∀ b, lookupBuffer s.buffers sid = some b →
      lookupBuffer (load_messages s sid).2.buffers sid = some b ∧
      (load_messages (flush_session s sid) sid).1 =
        (load_messages s sid).1 ++
          [⟨Update.chunk b.pending_kind b.accumulated_text, s.clock⟩]) := by
  refine ⟨rfl, rfl, ?_⟩
  intro b h
  refine ⟨h, ?_⟩
  show (sealBuffer s sid).store sid = _
  rw [sealBuffer_store, if_pos rfl, sealTail_of_lookup s sid b h]
  rfl

/-- Witness for C6: reading the session with three buffered chunks returns
only the sealed log (empty here), changes nothing, and the buffered text
appears only after the explicit flush. -/
theorem load_messages_no_implicit_flush_witness :
    (load_messages explicitFlushState "test-explicit-flush").2 =
      explicitFlushState ∧
    (load_messages explicitFlushState "test-explicit-flush").1 =
      explicitFlushState.store "test-explicit-flush" ∧
    (lookupBuffer (load_messages explicitFlushState
        "test-explicit-flush").2.buffers "test-explicit-flush" =
      some ⟨ChunkKind.agentMessage, "Chunk0 Chunk1 Chunk2 ", 2⟩ ∧
    (load_messages (flush_session explicitFlushState "test-explicit-flush")
        "test-explicit-flush").1 =
      (load_messages explicitFlushState "test-explicit-flush").1 ++
        [⟨Update.chunk ChunkKind.agentMessage "Chunk0 Chunk1 Chunk2 ",
          explicitFlushState.clock⟩]) :=
  ⟨(load_messages_no_implicit_flush explicitFlushState
      "test-explicit-flush").1,
   (load_messages_no_implicit_flush explicitFlushState
      "test-explicit-flush").2.1,
   (load_messages_no_implicit_flush explicitFlushState
      "test-explicit-flush").2.2
      ⟨ChunkKind.agentMessage, "Chunk0 Chunk1 Chunk2 ", 2⟩ (by decide)⟩

/-- C7.  Stale-timer guard: a fired inactivity-timer callback whose session
has no buffer, or whose captured generation differs from the buffer's
current `timer_generation`, performs no seal and no state change at all. -/
theorem stale_timer_guard (s : PersistenceService) (sid : String) (g : Nat) :
    (lookupBuffer s.buffers sid = none → onTimerFired s sid g = s) ∧
    (∀ b, lookupBuffer s.buffers sid = some b → b.timer_generation ≠ g →
      onTimerFired s sid g = s) := by
  constructor
  · intro h
    unfold onTimerFired
    rw [h]
  · intro b h hg
    unfold onTimerFired
    rw [h]
    exact if_neg hg

/-- Witness for C7: in the three-buffered-chunks state the armed generation
is 2; a stale callback carrying generation 0 is a no-op, and a callback for
a session with no buffer is also a no-op. -/
theorem stale_timer_guard_witness :
    onTimerFired explicitFlushState "test-explicit-flush" 0 =
      explicitFlushState ∧
    onTimerFired explicitFlushState "other-session" 0 = explicitFlushState :=
  ⟨(stale_timer_guard explicitFlushState "test-explicit-flush" 0).2
      ⟨ChunkKind.agentMessage, "Chunk0 Chunk1 Chunk2 ", 2⟩ (by decide)
      (by decide),
   (stale_timer_guard explicitFlushState "other-session" 0).1 (by decide)⟩

/-- Appending a sequence of entries to one session's log extends exactly
that log, in order. -/
theorem appendAll_apply (sid : String) (es : List MessageLogEntry) :
    ∀ st : MessageStore, MessageStore.appendAll st sid es sid =
      st sid ++ es := by
  induction es with
  | nil =>
    intro st
    simp [MessageStore.appendAll]
  | cons e es ih =>
    intro st
    show MessageStore.appendAll (st.append sid e) sid es sid = _
    rw [ih (st.append sid e)]
    simp [MessageStore.append]

/-- C8.  MessageStore read contract: after any sequence of appends for a
session, load returns exactly the prior entries followed by the appended
entries in append order (so already-written entries are never mutated or
reordered), and a session with no entries loads as an empty sequence, not
an error. -/
theorem message_store_read_contract (st : MessageStore) (sid : String)
    (es : List MessageLogEntry) :
    MessageStore.load (MessageStore.appendAll st sid es) sid =
      Except.ok (st sid ++ es) ∧
    MessageStore.load MessageStore.empty sid =
      Except.ok ([] : List MessageLogEntry) := by
  constructor
  · show Except.ok (MessageStore.appendAll st sid es sid) = _
    rw [appendAll_apply sid es st]
  · rfl

set_option maxRecDepth 20000 in
/-- C9.  High-frequency ingestion: 100 rapidly saved single-digit same-kind
chunks followed by the inactivity-timeout seal yield fewer than 10 entries
(here: exactly one), whose concatenated text has length exactly 100 and
reproduces the 100 digits in arrival order — no fragment lost, duplicated
or reordered. -/
theorem high_frequency_ingestion :
    (load_messages rapidSealed "test-rapid-arrival").1.length < 10 ∧
    concatTexts ((load_messages rapidSealed "test-rapid-arrival").1.map
      entryText) = concatTexts rapidChunkTexts ∧
    (concatTexts ((load_messages rapidSealed "test-rapid-arrival").1.map
      entryText)).length = 100 := by
  refine ⟨?_, ?_, ?_⟩ <;> decide

/-- Mapping a function over an optional value preserves `isSome`. -/
theorem isSome_opmap {α β : Type} (f : α → β) (o : Option α) :
    (Option.map f o).isSome = o.isSome := by
  cases o <;> rfl

/-- The byte-prefix slice succeeds exactly when the requested byte position
is in bounds and on a character boundary. -/
theorem takePrefixBytes_isSome_eq (text : List Char) :
    ∀ k, (takePrefixBytes text k).isSome = isCharBoundaryB text k := by
  induction text with
  | nil =>
    intro k
    cases k with
    | zero => rfl
    | succ k => rfl
  | cons c rest ih =>
    intro k
    cases k with
    | zero => rfl
    | succ k =>
      show (if c.utf8Size ≤ k + 1 then
          (takePrefixBytes rest (k + 1 - c.utf8Size)).map (fun l => c :: l)
        else none).isSome = _
      by_cases hc : c.utf8Size ≤ k + 1
      · rw [if_pos hc]
        show ((takePrefixBytes rest (k + 1 - c.utf8Size)).map
          (fun l => c :: l)).isSome = isCharBoundaryB (c :: rest) (k + 1)
        rw [isSome_opmap, ih (k + 1 - c.utf8Size)]
        show _ = if c.utf8Size ≤ k + 1 then _ else false
        rw [if_pos hc]
      · rw [if_neg hc]
        show false = isCharBoundaryB (c :: rest) (k + 1)
        show false = if c.utf8Size ≤ k + 1 then _ else false
        rw [if_neg hc]

set_option maxRecDepth 20000 in
/-- Counterexample to C10 as stated: for the 201-byte embedded resource
text of 199 ASCII characters followed by one two-byte character, the
truncation index `min(len, 200) = 200` falls inside the final character, so
the byte slice `text[..200]` is not on a UTF-8 character boundary and the
Rust code panics — modelled as `none`, not a returned `String`. -/
theorem extract_text_truncation_panics :
    extract_text_from_content (ContentBlock.resource
      (EmbeddedResourceResource.textResourceContents [] badResourceText)) =
      none ∧
    isCharBoundaryB badResourceText
      (min (utf8Len badResourceText) 200) = false := by
  constructor
  · decide
  · decide

/-- C10 (amended).  `extract_text_from_content` returns a string on every
`ContentBlock` except an embedded text resource whose truncation point
splits a multi-byte character: the truncation index `min(len, 200)` is
always in bounds (at most the byte length), and whenever it falls on a
UTF-8 character boundary — in particular whenever the text is at most 200
bytes, or is ASCII — the embedded-resource arm also returns a string; when
it is not a boundary the byte slice panics (modelled as `none`). -/
theorem extract_text_total_cases :
    (∀ cb, readsTextResource cb = false →
      (extract_text_from_content cb).isSome = true) ∧
    (∀ text : List Char, min (utf8Len text) 200 ≤ utf8Len text) ∧
    (∀ uri text,
      isCharBoundaryB text (min (utf8Len text) 200) = true →
      (extract_text_from_content (ContentBlock.resource
        (EmbeddedResourceResource.textResourceContents uri text))).isSome =
        true) ∧
    (∀ uri text,
      isCharBoundaryB text (min (utf8Len text) 200) = false →
      extract_text_from_content (ContentBlock.resource
        (EmbeddedResourceResource.textResourceContents uri text)) = none) := by
  refine ⟨?_, ?_, ?_, ?_⟩
  · intro cb h
    cases cb with
    | text t => rfl
    | image m => rfl
    | audio m => rfl
    | resourceLink n => rfl
    | resource r =>
      cases r with
      | textResourceContents uri text => exact absurd h (by simp [readsTextResource])
      | blobResourceContents uri => rfl
      | otherResource => rfl
    | otherContent => rfl
  · intro text
    exact min_le_left _ _
  · intro uri text h
    show ((takePrefixBytes text (min (utf8Len text) 200)).map _).isSome = true
    rw [isSome_opmap, takePrefixBytes_isSome_eq, h]
  · intro uri text h
    show (takePrefixBytes text (min (utf8Len text) 200)).map _ = none
    have hs : (takePrefixBytes text (min (utf8Len text) 200)).isSome =
        false := by
      rw [takePrefixBytes_isSome_eq, h]
    cases ho : takePrefixBytes text (min (utf8Len text) 200) with
    | none => rfl
    | some l => rw [ho] at hs; exact absurd hs (by simp)

set_option maxRecDepth 20000 in
/-- Witness for the amended C10: the plain-text arm returns a string, a
short ASCII embedded resource returns a string, and the 201-byte
counterexample text hits the panicking branch. -/
theorem extract_text_total_cases_witness :
    (extract_text_from_content (ContentBlock.text ['x'])).isSome = true ∧
    (extract_text_from_content (ContentBlock.resource
      (EmbeddedResourceResource.textResourceContents ['u'] ['a', 'b']))).isSome
      = true ∧
    extract_text_from_content (ContentBlock.resource
      (EmbeddedResourceResource.textResourceContents ['u'] badResourceText)) =
      none :=
  ⟨extract_text_total_cases.1 (ContentBlock.text ['x']) rfl,
   extract_text_total_cases.2.2.1 ['u'] ['a', 'b'] (by decide),
   extract_text_total_cases.2.2.2 ['u'] badResourceText (by decide)⟩

end AgentStudio
